import Mathlib

/-!
Verification of the Pakistani salaried-income tax calculator (`src/app.py`).

The program's arithmetic (Python floats over a static slab table with exact
decimal literals) is embedded over `ℚ`.  Monetary amounts and rates become
rationals; the slab table `TAX_SLABS` (an insertion-ordered dict with a
final sentinel key named over) becomes an ordered list of records whose
`ceiling` field is `none` for the sentinel entry.
-/

/-- One entry of the slab table: optional ceiling (the sentinel top slab has
none), the fixed base tax, the marginal rate, and the exceeding amount. -/
structure Slab where
  ceiling : Option ℕ
  fixed_tax : ℚ
  rate : ℚ
  exceeding_amount : ℕ
  deriving DecidableEq, Repr

/-- The table `TAX_SLABS` from `src/app.py`, in its iteration order. -/
def TAX_SLABS : List Slab :=
  [⟨some 600000, 0, 0, 0⟩,
   ⟨some 1200000, 0, 1/100, 600000⟩,
   ⟨some 2200000, 6000, 11/100, 1200000⟩,
   ⟨some 3200000, 116000, 23/100, 2200000⟩,
   ⟨some 4100000, 346000, 30/100, 3200000⟩,
   ⟨none, 616000, 35/100, 4100000⟩]

/-- Regroup a reversed digit string into blocks of three separated by
commas, mirroring Python format spec comma grouping. -/
def insertCommasRev : List Char → List Char
  | [] => []
  | [c] => [c]
  | [c1, c2] => [c1, c2]
  | c1 :: c2 :: c3 :: rest =>
    if rest.isEmpty then [c1, c2, c3]
    else c1 :: c2 :: c3 :: ',' :: insertCommasRev rest

/-- Python's comma format of a natural number, e.g. 1200000 to 1,200,000. -/
def commaFmt (n : ℕ) : String :=
  String.mk (insertCommasRev (toString n).toList.reverse).reverse

/-- The body of the for-loop in `calculate_annual_tax`: scan the slab list
in order; `none` models falling out of the loop (the break on the sentinel
entry, or list exhaustion) into the fallback return. -/
def slabLoop (taxable_income : ℚ) : List Slab → Option (ℚ × String × ℚ × ℚ × ℚ × ℚ)
  | [] => none
  | s :: rest =>
    match s.ceiling with
    | none =>
      if taxable_income > (s.exceeding_amount : ℚ) then
        let taxable_amount_over_limit := taxable_income - (s.exceeding_amount : ℚ)
        let annual_tax := s.fixed_tax + taxable_amount_over_limit * s.rate
        some (annual_tax, "S#6 (Over Rs. " ++ commaFmt s.exceeding_amount ++ ")",
              s.fixed_tax, s.rate, (s.exceeding_amount : ℚ), taxable_amount_over_limit)
      else none
    | some ceiling =>
      if taxable_income ≤ (ceiling : ℚ) then
        let taxable_amount_over_limit := taxable_income - (s.exceeding_amount : ℚ)
        if s.exceeding_amount = 0 then
          some (0, "S#1 (Upto Rs. " ++ commaFmt ceiling ++ ")",
                s.fixed_tax, s.rate, (s.exceeding_amount : ℚ), taxable_amount_over_limit)
        else if s.exceeding_amount = 600000 then
          some (taxable_amount_over_limit * s.rate,
                "S#2 (Rs. " ++ commaFmt s.exceeding_amount ++ " to Rs. " ++ commaFmt ceiling ++ ")",
                s.fixed_tax, s.rate, (s.exceeding_amount : ℚ), taxable_amount_over_limit)
        else
          let slab_index := (TAX_SLABS.map Slab.ceiling).indexOf (some ceiling) + 1
          some (s.fixed_tax + taxable_amount_over_limit * s.rate,
                "S#" ++ toString slab_index ++ " (Rs. " ++ commaFmt s.exceeding_amount
                  ++ " to Rs. " ++ commaFmt ceiling ++ ")",
                s.fixed_tax, s.rate, (s.exceeding_amount : ℚ), taxable_amount_over_limit)
      else slabLoop taxable_income rest

/-- `calculate_annual_tax` from `src/app.py`: returns the 6-tuple
(annual_tax, slab_info, fixed_tax, rate, exceeding_amount,
taxable_amount_over_limit), with the final fallback return when the loop
finishes without returning. -/
def calculate_annual_tax (taxable_income : ℚ) : ℚ × String × ℚ × ℚ × ℚ × ℚ :=
  (slabLoop taxable_income TAX_SLABS).getD (0, "Not Found", 0, 0, 0, 0)

/-- `calculate_taxable_income` from `src/app.py`: annualize the sum of the
16 monthly components and add the annual employer PF contribution. -/
def calculate_taxable_income
    (basic_salary_m hra_m conveyance_m medical_m other_m
     utility_m special_m bonus_m overtime_m tada_m
     housing_m education_m leave_encashment_m food_m commission_m misc_bonus_m
     employer_pf_a : ℚ) : ℚ :=
  let total_monthly_components :=
    basic_salary_m + hra_m + conveyance_m + medical_m + other_m +
    utility_m + special_m + bonus_m + overtime_m + tada_m +
    housing_m + education_m + leave_encashment_m + food_m + commission_m + misc_bonus_m
  let annual_income := total_monthly_components * 12
  let total_taxable_income := annual_income + employer_pf_a
  total_taxable_income

/-- Outcome of `run_tax_calculator_web`: either the Invalid Input error
return (the 4-tuple whose first block is the error message and whose other
three blocks are empty), or the numeric quantities computed for the four
markdown blocks (annual taxable income, annual tax, monthly tax, slab
label).  The surrounding display-string formatting is the excluded UI
layer. -/
inductive WebOutput where
  | invalidInput : WebOutput
  | result : ℚ → ℚ → ℚ → String → WebOutput
  deriving DecidableEq

/-- `run_tax_calculator_web` from `src/app.py`, numerically: each of the 17
fields is `some q` when it coerces to a number and `none` otherwise; the
try/except float coercion of the whole input list is `List.mapM id`.  On
success it runs the Aggregator, then the Slab Resolver, then derives
monthly tax as annual tax divided by 12. -/
def run_tax_calculator_web
    (basic_salary_m hra_m conveyance_m medical_m other_m
     utility_m special_m bonus_m overtime_m tada_m
     housing_m education_m leave_encashment_m food_m commission_m misc_bonus_m
     employer_pf_a : Option ℚ) : WebOutput :=
  match [basic_salary_m, hra_m, conveyance_m, medical_m, other_m,
         utility_m, special_m, bonus_m, overtime_m, tada_m,
         housing_m, education_m, leave_encashment_m, food_m, commission_m, misc_bonus_m,
         employer_pf_a].mapM id with
  | none => WebOutput.invalidInput
  | some qs =>
    match qs with
    | [b, h, c, m, o, u, sp, bo, ov, t, ho, e, l, f, co, mi, pf] =>
      let annual_taxable_income := calculate_taxable_income b h c m o u sp bo ov t ho e l f co mi pf
      let r := calculate_annual_tax annual_taxable_income
      let annual_tax := r.1
      let slab_info := r.2.1
      let monthly_tax := annual_tax / 12
      WebOutput.result annual_taxable_income annual_tax monthly_tax slab_info
    | _ => WebOutput.invalidInput

/-- Closed form of the annual-tax amount computed by the slab scan: the
first component of `calculate_annual_tax` as a six-way piecewise-linear
function of the taxable income. -/
theorem calculate_annual_tax_fst_eq (x : ℚ) :
    (calculate_annual_tax x).1 =
      if x ≤ 600000 then 0
      else if x ≤ 1200000 then (x - 600000) * (1/100)
      else if x ≤ 2200000 then 6000 + (x - 1200000) * (11/100)
      else if x ≤ 3200000 then 116000 + (x - 2200000) * (23/100)
      else if x ≤ 4100000 then 346000 + (x - 3200000) * (30/100)
      else 616000 + (x - 4100000) * (35/100) := by
  simp only [calculate_annual_tax, TAX_SLABS, slabLoop]
  norm_num
  split_ifs <;> first | rfl | linarith

/-- Mapping the identity over a list of optional rationals fails as soon as
the list holds a `none` entry (the model of the float coercion of the input
list failing on any field). -/
theorem mapM_id_eq_none (l : List (Option ℚ)) (hl : none ∈ l) : l.mapM id = none := by
  induction l with
  | nil => simp at hl
  | cons x xs ih =>
    rw [List.mapM_cons]
    rcases List.mem_cons.mp hl with h | h
    · subst h
      rfl
    · cases x with
      | none => rfl
      | some a =>
        show ((xs.mapM id) >>= fun bs => pure (a :: bs)) = none
        rw [ih h]
        rfl

/-- C1: for every taxable income at most 600,000 — including any negative
income — `calculate_annual_tax` returns annual tax 0 and identifies slab 1. -/
theorem claim1_low_income_zero_tax (x : ℚ) (h : x ≤ 600000) :
    (calculate_annual_tax x).1 = 0 ∧
      (calculate_annual_tax x).2.1 = "S#1 (Upto Rs. 600,000)" := by
  have hc : x ≤ ((600000 : ℕ) : ℚ) := by push_cast; exact h
  constructor
  · rw [calculate_annual_tax_fst_eq, if_pos h]
  · simp only [calculate_annual_tax, TAX_SLABS, slabLoop, if_pos hc]
    norm_num
    rfl

/-- Witness for C1 at the negative income -50,000. -/
theorem claim1_low_income_zero_tax_witness :
    (-50000 : ℚ) ≤ 600000 ∧
      ((calculate_annual_tax (-50000)).1 = 0 ∧
        (calculate_annual_tax (-50000)).2.1 = "S#1 (Upto Rs. 600,000)") :=
  ⟨by norm_num, claim1_low_income_zero_tax (-50000) (by norm_num)⟩

/-- C2: for every taxable income strictly above 600,000 and at most
1,200,000, `calculate_annual_tax` returns 0.01 times the excess over
600,000. -/
theorem claim2_tier2_marginal_tax (x : ℚ) (h1 : 600000 < x) (h2 : x ≤ 1200000) :
    (calculate_annual_tax x).1 = (1/100) * (x - 600000) := by
  rw [calculate_annual_tax_fst_eq, if_neg (by linarith), if_pos h2]
  ring

/-- Witness for C2 at income 1,000,000, taxed 4,000. -/
theorem claim2_tier2_marginal_tax_witness :
    (600000 : ℚ) < 1000000 ∧ (1000000 : ℚ) ≤ 1200000 ∧
      (calculate_annual_tax 1000000).1 = (1/100) * (1000000 - 600000) :=
  ⟨by norm_num, by norm_num, claim2_tier2_marginal_tax 1000000 (by norm_num) (by norm_num)⟩

/-- C3: for every taxable income above 1,200,000 the tax is the
fixed base plus rate times excess of the first tier whose upper bound is at
least the income, falling through to the unbounded top tier (base 616,000,
rate 0.35, threshold 4,100,000) above 4,100,000; in particular income
5,000,000 is taxed 931,000. -/
theorem claim3_upper_tier_tax (x : ℚ) (h : 1200000 < x) :
    ((calculate_annual_tax x).1 =
      if x ≤ 2200000 then 6000 + (11/100) * (x - 1200000)
      else if x ≤ 3200000 then 116000 + (23/100) * (x - 2200000)
      else if x ≤ 4100000 then 346000 + (30/100) * (x - 3200000)
      else 616000 + (35/100) * (x - 4100000)) ∧
    (calculate_annual_tax 5000000).1 = 931000 := by
  constructor
  · rw [calculate_annual_tax_fst_eq, if_neg (by linarith), if_neg (by linarith)]
    split_ifs <;> ring
  · rw [calculate_annual_tax_fst_eq]
    norm_num

/-- Witness for C3 at income 5,000,000. -/
theorem claim3_upper_tier_tax_witness :
    (1200000 : ℚ) < 5000000 ∧
      (((calculate_annual_tax 5000000).1 =
        if (5000000 : ℚ) ≤ 2200000 then 6000 + (11/100) * (5000000 - 1200000)
        else if (5000000 : ℚ) ≤ 3200000 then 116000 + (23/100) * (5000000 - 2200000)
        else if (5000000 : ℚ) ≤ 4100000 then 346000 + (30/100) * (5000000 - 3200000)
        else 616000 + (35/100) * (5000000 - 4100000)) ∧
      (calculate_annual_tax 5000000).1 = 931000) :=
  ⟨by norm_num, claim3_upper_tier_tax 5000000 (by norm_num)⟩

/-- C4: an income exactly equal to a tier's upper bound is taxed by that
lower tier: the taxes at 600,000, 1,200,000 and 2,200,000 are 0, 6,000 and
116,000. -/
theorem claim4_boundary_inclusive :
    (calculate_annual_tax 600000).1 = 0 ∧ (calculate_annual_tax 1200000).1 = 6000 ∧
      (calculate_annual_tax 2200000).1 = 116000 := by
  refine ⟨?_, ?_, ?_⟩ <;> rw [calculate_annual_tax_fst_eq] <;> norm_num

/-- C5: for every 17-tuple of inputs, `calculate_taxable_income` returns
the sum of the 16 monthly values times 12 plus the annual value; with each
monthly input 50,000 and annual PF 100,000 it returns 9,700,000. -/
theorem claim5_taxable_income_formula
    (b h c m o u sp bo ov t ho e l f co mi pf : ℚ) :
    (calculate_taxable_income b h c m o u sp bo ov t ho e l f co mi pf
      = (b + h + c + m + o + u + sp + bo + ov + t + ho + e + l + f + co + mi) * 12 + pf) ∧
    calculate_taxable_income 50000 50000 50000 50000 50000 50000 50000 50000
      50000 50000 50000 50000 50000 50000 50000 50000 100000 = 9700000 :=
  ⟨rfl, by norm_num [calculate_taxable_income]⟩

/-- C6: on every all-numeric invocation, `run_tax_calculator_web` produces
a result whose monthly tax is exactly the computed annual tax divided
by 12. -/
theorem claim6_monthly_tax_is_twelfth
    (b h c m o u sp bo ov t ho e l f co mi pf : ℚ) :
    run_tax_calculator_web (some b) (some h) (some c) (some m) (some o) (some u)
      (some sp) (some bo) (some ov) (some t) (some ho) (some e) (some l) (some f)
      (some co) (some mi) (some pf) =
    WebOutput.result (calculate_taxable_income b h c m o u sp bo ov t ho e l f co mi pf)
      (calculate_annual_tax (calculate_taxable_income b h c m o u sp bo ov t ho e l f co mi pf)).1
      ((calculate_annual_tax (calculate_taxable_income b h c m o u sp bo ov t ho e l f co mi pf)).1 / 12)
      (calculate_annual_tax (calculate_taxable_income b h c m o u sp bo ov t ho e l f co mi pf)).2.1 := by
  rfl

/-- C7: the annual tax is monotone non-decreasing in the taxable income for
non-negative incomes. -/
theorem claim7_tax_monotone (x y : ℚ) (hx : 0 ≤ x) (hxy : x ≤ y) :
    (calculate_annual_tax x).1 ≤ (calculate_annual_tax y).1 := by
  rw [calculate_annual_tax_fst_eq, calculate_annual_tax_fst_eq]
  split_ifs <;> linarith

/-- Witness for C7 at the pair 500,000 and 5,000,000. -/
theorem claim7_tax_monotone_witness :
    (0 : ℚ) ≤ 500000 ∧ (500000 : ℚ) ≤ 5000000 ∧
      (calculate_annual_tax 500000).1 ≤ (calculate_annual_tax 5000000).1 :=
  ⟨by norm_num, by norm_num, claim7_tax_monotone 500000 5000000 (by norm_num) (by norm_num)⟩

/-- C8: at every bounded tier of the slab table, the tax at that tier's
upper bound equals the fixed base tax of the next tier. -/
theorem claim8_boundary_continuity (i : ℕ) (hi : i + 1 < TAX_SLABS.length) :
    (calculate_annual_tax (((TAX_SLABS.getD i ⟨none, 0, 0, 0⟩).ceiling.getD 0 : ℕ) : ℚ)).1
      = (TAX_SLABS.getD (i + 1) ⟨none, 0, 0, 0⟩).fixed_tax := by
  have h5 : i < 5 := by
    simp only [TAX_SLABS, List.length] at hi
    omega
  interval_cases i <;> norm_num [TAX_SLABS, calculate_annual_tax_fst_eq]

/-- Witness for C8 at tier 2: the tax at 1,200,000 equals tier 3's fixed
base 6,000. -/
theorem claim8_boundary_continuity_witness :
    1 + 1 < TAX_SLABS.length ∧
      (calculate_annual_tax (((TAX_SLABS.getD 1 ⟨none, 0, 0, 0⟩).ceiling.getD 0 : ℕ) : ℚ)).1
        = (TAX_SLABS.getD (1 + 1) ⟨none, 0, 0, 0⟩).fixed_tax :=
  ⟨by simp [TAX_SLABS], claim8_boundary_continuity 1 (by simp [TAX_SLABS])⟩

/-- C9: the slab scan returns from one of the six tier branches for every
non-negative income, so the Not Found fallback return is unreachable
there. -/
theorem claim9_resolver_total (x : ℚ) (h : 0 ≤ x) :
    (slabLoop x TAX_SLABS).isSome = true ∧
      (calculate_annual_tax x).2.1 ≠ "Not Found" := by
  simp only [calculate_annual_tax, TAX_SLABS, slabLoop]
  norm_num
  split_ifs <;> simp_all <;> decide

/-- Witness for C9 at income 0. -/
theorem claim9_resolver_total_witness :
    (0 : ℚ) ≤ 0 ∧ ((slabLoop 0 TAX_SLABS).isSome = true ∧
      (calculate_annual_tax 0).2.1 ≠ "Not Found") :=
  ⟨by norm_num, claim9_resolver_total 0 (by norm_num)⟩

/-- C10: if any of the 17 fields fails numeric coercion,
`run_tax_calculator_web` returns the Invalid Input error outcome, running
no part of the tax computation. -/
theorem claim10_invalid_input_no_computation
    (basic_salary_m hra_m conveyance_m medical_m other_m
     utility_m special_m bonus_m overtime_m tada_m
     housing_m education_m leave_encashment_m food_m commission_m misc_bonus_m
     employer_pf_a : Option ℚ)
    (hbad : basic_salary_m = none ∨ hra_m = none ∨ conveyance_m = none ∨ medical_m = none ∨
      other_m = none ∨ utility_m = none ∨ special_m = none ∨ bonus_m = none ∨
      overtime_m = none ∨ tada_m = none ∨ housing_m = none ∨ education_m = none ∨
      leave_encashment_m = none ∨ food_m = none ∨ commission_m = none ∨ misc_bonus_m = none ∨
      employer_pf_a = none) :
    run_tax_calculator_web basic_salary_m hra_m conveyance_m medical_m other_m
      utility_m special_m bonus_m overtime_m tada_m
      housing_m education_m leave_encashment_m food_m commission_m misc_bonus_m
      employer_pf_a = WebOutput.invalidInput := by
  rcases hbad with rfl|rfl|rfl|rfl|rfl|rfl|rfl|rfl|rfl|rfl|rfl|rfl|rfl|rfl|rfl|rfl|rfl <;>
    · simp only [run_tax_calculator_web]
      rw [mapM_id_eq_none _ (by simp)]

/-- Witness for C10 with the first field non-numeric and the rest 0. -/
theorem claim10_invalid_input_no_computation_witness :
    run_tax_calculator_web none (some 0) (some 0) (some 0) (some 0) (some 0)
      (some 0) (some 0) (some 0) (some 0) (some 0) (some 0) (some 0) (some 0)
      (some 0) (some 0) (some 0) = WebOutput.invalidInput :=
  claim10_invalid_input_no_computation none (some 0) (some 0) (some 0) (some 0) (some 0)
    (some 0) (some 0) (some 0) (some 0) (some 0) (some 0) (some 0) (some 0)
    (some 0) (some 0) (some 0) (Or.inl rfl)
